import Mathlib

/-!
Verification development for the ms-analyzer document processing service.

The definitions below are a shallow embedding of the TypeScript sources:
tax-id normalization and validation (src/common/utils), the amount and
line normalization of OpenAiService.normalizeResult and of
parseEuropeanPrice in AzureDocIntelService, the rate-limit retry and
polling protocol of AzureDocIntelService.analyzeWithRetry, the duplicate
checker DocumentsService.checkInvoiceExists, the document state
transitions of DocumentsService.processDocument, the transactional
persistExtraction, and the bounded-concurrency queue of the queue-based
DocumentsService variant (enqueue, drainQueue, requeuePending).

Strings are modelled as List Char, JS numbers as exact rationals, SQL NULL
as Option.none. Machine floating point is not modelled; all numeric facts
proved here are at the decimal-digit level where binary rounding plays no
role.
-/

namespace MSAnalyzer

/-! ### ASCII character classes used by the JS regexes -/

/-- The regex class [0-9]. -/
def jsIsDigit (c : Char) : Bool := 48 ≤ c.toNat && c.toNat ≤ 57

/-- The regex class [A-Z]. -/
def jsIsUpperAZ (c : Char) : Bool := 65 ≤ c.toNat && c.toNat ≤ 90

/-- ASCII lowercase a-z. -/
def jsIsLowerAZ (c : Char) : Bool := 97 ≤ c.toNat && c.toNat ≤ 122

/-- Model of String.prototype.toUpperCase on one character; the sources
only feed it ASCII tax ids, so only the ASCII case matters. -/
def jsToUpperChar (c : Char) : Char :=
  if jsIsLowerAZ c then Char.ofNat (c.toNat - 32) else c

/-- The regex class backslash-s restricted to the ASCII whitespace
characters (space, tab, line feed, vertical tab, form feed, carriage
return); the tax ids in play never carry Unicode whitespace. -/
def isJsSpace (c : Char) : Bool := c.toNat = 32 || (9 ≤ c.toNat && c.toNat ≤ 13)

/-! ### Tax-ID normalizer and validator (src/common/utils) -/

/-- The separator class of normalizeSpanishTaxId: whitespace, dash, slash,
dot. -/
def isTaxIdSeparator (c : Char) : Bool :=
  isJsSpace c || c == '-' || c == '/' || c == '.'

/-- The anchored regex replace of a leading literal ES. -/
def stripLeadingES : List Char → List Char
  | 'E' :: 'S' :: rest => rest
  | s => s

/-- normalizeSpanishTaxId from src/common/utils/taxid: uppercase, strip a
leading ES, drop separator characters; a falsy input or an empty cleaned
result yields null. -/
def normalizeSpanishTaxId : Option (List Char) → Option (List Char)
  | none => none
  | some raw =>
    if raw.isEmpty then none
    else
      let cleaned :=
        (stripLeadingES (raw.map jsToUpperChar)).filter (fun c => !isTaxIdSeparator c)
      if cleaned.isEmpty then none else some cleaned

/-- The DNI regex shape: eight digits then a letter (the /i flag makes the
final class match any ASCII letter). -/
def dniShape (s : List Char) : Bool :=
  s.length == 9 && (s.take 8).all jsIsDigit &&
    (match s.drop 8 with
     | [c] => jsIsUpperAZ (jsToUpperChar c)
     | _ => false)

/-- Lead letters accepted by the CIF regex. -/
def cifLeadLetters : List Char :=
  ['A', 'B', 'C', 'D', 'E', 'F', 'G', 'H', 'J', 'N', 'P', 'Q', 'R', 'S', 'U', 'V', 'W']

/-- The CIF regex shape: a lead letter, seven digits, then [0-9A-J]. -/
def cifShape (s : List Char) : Bool :=
  match s with
  | c0 :: rest =>
    cifLeadLetters.contains (jsToUpperChar c0) && rest.length == 8 &&
      (rest.take 7).all jsIsDigit &&
      (match rest.drop 7 with
       | [c] =>
         jsIsDigit c ||
           (65 ≤ (jsToUpperChar c).toNat && (jsToUpperChar c).toNat ≤ 74)
       | _ => false)
  | [] => false

/-- The NIE regex shape: X, Y or Z, seven digits, then a letter. -/
def nieShape (s : List Char) : Bool :=
  match s with
  | c0 :: rest =>
    (jsToUpperChar c0 == 'X' || jsToUpperChar c0 == 'Y' || jsToUpperChar c0 == 'Z') &&
      rest.length == 8 && (rest.take 7).all jsIsDigit &&
      (match rest.drop 7 with
       | [c] => jsIsUpperAZ (jsToUpperChar c)
       | _ => false)
  | [] => false

/-- The separator class removed by isValidSpanishNif: whitespace or dash
only (slash and dot are not removed here). -/
def isNifSeparator (c : Char) : Bool := isJsSpace c || c == '-'

/-- isValidSpanishNif from src/common/utils: falsy input is invalid;
otherwise uppercase, remove whitespace and dashes, and test the three
regex shapes. Pure shape tests: no control-digit arithmetic anywhere. -/
def isValidSpanishNif : Option (List Char) → Bool
  | none => false
  | some v =>
    if v.isEmpty then false
    else
      let upper := (v.map jsToUpperChar).filter (fun c => !isNifSeparator c)
      dniShape upper || cifShape upper || nieShape upper

/-! ### JS values and number parsing (OpenAiService.normalizeResult and
parseEuropeanPrice in AzureDocIntelService.analyzeWithRetry) -/

/-- The JSON/JS values the normalizers receive. Finite numbers are exact
rationals; the non-finite numbers NaN and the two infinities are separate
constructors; other covers booleans, objects and undefined. -/
inductive JsValue where
  | null
  | num (q : ℚ)
  | nan
  | inf
  | negInf
  | str (s : List Char)
  | other
deriving DecidableEq

/-- Accumulate a digit run into a natural number. -/
def digitsToNat (ds : List Char) : ℕ :=
  ds.foldl (fun a c => 10 * a + (c.toNat - 48)) 0

/-- Value of a fractional digit run. -/
def fracValue (ds : List Char) : ℚ :=
  (digitsToNat ds : ℚ) / (10 : ℚ) ^ ds.length

/-- The unsigned part of the JS parseFloat grammar restricted to digit and
dot strings (the callers below only ever pass characters in [0-9.,-]):
longest prefix of the form digits, digits dot digits, or dot digits; none
models NaN. parseFloat stops at the first character that cannot extend the
literal, in particular at a second dot. -/
def parseUnsignedDecimal (s : List Char) : Option ℚ :=
  match s.takeWhile jsIsDigit, s.dropWhile jsIsDigit with
  | [], '.' :: rest =>
    let frac := rest.takeWhile jsIsDigit
    if frac.isEmpty then none else some (fracValue frac)
  | [], _ => none
  | ds, '.' :: rest => some ((digitsToNat ds : ℚ) + fracValue (rest.takeWhile jsIsDigit))
  | ds, _ => some (digitsToNat ds)

/-- Model of JS parseFloat on the cleaned strings fed to it by
normalizeNumber and parseEuropeanPrice. -/
def jsParseFloat (s : List Char) : Option ℚ :=
  match s with
  | '-' :: rest => (parseUnsignedDecimal rest).map (fun q => -q)
  | '+' :: rest => parseUnsignedDecimal rest
  | s => parseUnsignedDecimal s

/-- The character class kept by the replace of [^0-9.,-] with the empty
string. -/
def isKeptNumChar (c : Char) : Bool :=
  jsIsDigit c || c == '.' || c == ',' || c == '-'

/-- String.prototype.replace with a non-global pattern: only the first
comma becomes a dot. -/
def replaceFirstComma : List Char → List Char
  | [] => []
  | ',' :: rest => '.' :: rest
  | c :: rest => c :: replaceFirstComma rest

/-- normalizeNumber from OpenAiService.normalizeResult: null and undefined
give null; a finite number passes through; a non-finite number gives null;
a string is stripped to [0-9.,-], its first comma becomes a dot, and the
result is parseFloat-ed, NaN giving null; anything else gives null. -/
def normalizeNumber : JsValue → Option ℚ
  | .null => none
  | .num q => some q
  | .nan => none
  | .inf => none
  | .negInf => none
  | .str s => jsParseFloat (replaceFirstComma (s.filter isKeptNumChar))
  | .other => none

/-- parseEuropeanPrice from AzureDocIntelService.analyzeWithRetry
(src/unnamed/part_003): a missing or empty string gives null; otherwise
the first comma becomes a dot and the string is parseFloat-ed, NaN giving
null. -/
def parseEuropeanPrice : Option (List Char) → Option ℚ
  | none => none
  | some s =>
    if s.isEmpty then none
    else jsParseFloat (replaceFirstComma s)

/-! ### Result normalizer line handling (OpenAiService.normalizeResult) -/

/-- JS String.prototype.trim on ASCII whitespace. -/
def jsTrim (s : List Char) : List Char :=
  ((s.dropWhile isJsSpace).reverse.dropWhile isJsSpace).reverse

/-- Stand-in for JS Number.prototype.toString; the theorems below only use
that it is a non-empty string, which holds of every JS number rendering. -/
def numberToStringModel (q : ℚ) : List Char :=
  (toString q.num).data ++ '/' :: (toString q.den).data

/-- normalizeText from OpenAiService.normalizeResult: a string is trimmed
and an empty trim gives null; a number is rendered; anything else gives
null. -/
def normalizeText : JsValue → Option (List Char)
  | .str s =>
    let t := jsTrim s
    if t.isEmpty then none else some t
  | .num q => some (numberToStringModel q)
  | .nan => some ['N', 'a', 'N']
  | .inf => some ['I', 'n', 'f', 'i', 'n', 'i', 't', 'y']
  | .negInf => some ['-', 'I', 'n', 'f', 'i', 'n', 'i', 't', 'y']
  | _ => none

/-- Model of Number((x).toFixed(2)): round to two decimal places, ties
away from zero. -/
def jsToFixed2 (q : ℚ) : ℚ :=
  if q < 0 then -((⌊(-q) * 100 + 1 / 2⌋ : ℚ) / 100) else (⌊q * 100 + 1 / 2⌋ : ℚ) / 100

/-- One element of the raw productos array of the OpenAI response. -/
structure RawProducto where
  numero_albaran : JsValue
  referencia : JsValue
  descripcion : JsValue
  cantidad : JsValue
  precio : JsValue
  total : JsValue
deriving DecidableEq

/-- The normalized line shape produced by normalizeResult. -/
structure NormalizedLine where
  description : Option (List Char)
  productCode : Option (List Char)
  quantity : Option ℚ
  unitPrice : Option ℚ
  total : Option ℚ
deriving DecidableEq

/-- The per-line map of normalizeResult: normalize quantity, unit price
and total; when the explicit total is null but quantity and unit price are
both present, derive Number((quantity * unitPrice).toFixed(2)). -/
def normalizeLine (producto : RawProducto) : NormalizedLine :=
  let quantity := normalizeNumber producto.cantidad
  let unitPrice := normalizeNumber producto.precio
  let total := normalizeNumber producto.total
  let computedTotal :=
    match total with
    | some t => some t
    | none =>
      match quantity, unitPrice with
      | some q, some p => some (jsToFixed2 (q * p))
      | _, _ => none
  { description := normalizeText producto.descripcion
    productCode := normalizeText producto.referencia
    quantity := quantity
    unitPrice := unitPrice
    total := computedTotal }

/-- The noise-suppression filter of normalizeResult: keep a line only if
some field is non-null. -/
def keepLine (line : NormalizedLine) : Bool :=
  line.description.isSome || line.productCode.isSome || line.quantity.isSome ||
    line.unitPrice.isSome || line.total.isSome

/-- The lines pipeline of normalizeResult: map then filter. -/
def normalizeLines (productos : List RawProducto) : List NormalizedLine :=
  (productos.map normalizeLine).filter keepLine

/-! ### Document rows and the pipeline state transitions
(DocumentsService.submit / processDocument) -/

/-- The DocumentStatus enum of the Prisma schema. -/
inductive DocumentStatus where
  | PENDING
  | PROCESSING
  | DONE
  | FAILED
deriving DecidableEq

/-- The columns of the Document row that the pipeline transitions touch.
none models SQL NULL. -/
structure DocumentRow where
  status : DocumentStatus
  fileData : Option (List ℕ)
  errorReason : Option (List Char)
  blobName : Option (List Char)
  hasProcessedAt : Bool
deriving DecidableEq

/-- Document creation in submit: status PENDING, raw bytes stored, no
error reason. -/
def createPendingDocument (bytes : List ℕ) : DocumentRow :=
  { status := .PENDING, fileData := some bytes, errorReason := none,
    blobName := none, hasProcessedAt := false }

/-- The first update of processDocument: status PROCESSING, stale error
reason cleared; every other column is left as it was. -/
def markProcessing (d : DocumentRow) : DocumentRow :=
  { d with status := .PROCESSING, errorReason := none }

/-- The success update of processDocument: status DONE, processedAt set,
error reason cleared, blob name recorded, raw bytes cleared. -/
def markDone (d : DocumentRow) (blobName : Option (List Char)) : DocumentRow :=
  { d with
    status := .DONE
    hasProcessedAt := true
    errorReason := none
    blobName := blobName
    fileData := none }

/-- The catch-block update of processDocument: status FAILED and the error
message truncated with substring(0, 500); every other column, the raw
bytes included, is left as it was. -/
def markFailed (d : DocumentRow) (message : List Char) : DocumentRow :=
  { d with status := .FAILED, errorReason := some (message.take 500) }

/-- The Document record invariant exactly as the claim states it: raw
bytes non-null only while PENDING or PROCESSING, and errorReason non-null
only when FAILED. -/
def claimedDocInvariant (d : DocumentRow) : Bool :=
  (d.fileData.isNone || (d.status == .PENDING || d.status == .PROCESSING)) &&
    (d.errorReason.isNone || d.status == .FAILED)

/-- The invariant the transitions actually preserve: errorReason non-null
only when FAILED, and raw bytes null once DONE (a FAILED row keeps its
bytes). -/
def docInvariant (d : DocumentRow) : Bool :=
  (d.errorReason.isNone || d.status == .FAILED) &&
    (!(d.status == .DONE) || d.fileData.isNone)

/-! ### The bounded-concurrency queue of the queue-based DocumentsService
variant (src/unnamed/part_005) -/

/-- The default of the PROCESSING_CONCURRENCY env variable
(src/config/envs). -/
def defaultProcessingConcurrency : ℕ := 2

/-- The queue bookkeeping: backlog is this.queue, activeJobs the counter;
admitted and enqueued are ghost histories recording, in order, the ids
handed to processDocument and the ids ever enqueued. -/
structure QueueState where
  backlog : List ℕ
  activeJobs : ℕ
  admitted : List ℕ
  enqueued : List ℕ
deriving DecidableEq

/-- The queue before any submission. -/
def initialQueueState : QueueState :=
  { backlog := [], activeJobs := 0, admitted := [], enqueued := [] }

/-- enqueue(documentId): push onto the backlog (drainQueue admission is a
separate step below). -/
def enqueueOne (s : QueueState) (id : ℕ) : QueueState :=
  { s with backlog := s.backlog ++ [id], enqueued := s.enqueued ++ [id] }

/-- One observable step of the queue. startJob is the synchronous prefix of
drainQueue — the capacity check, the shift of the oldest backlog id and
the counter increment run atomically on the single JS thread — and finish
is the finally block releasing the slot when processDocument settles. -/
inductive QueueStep (limit : ℕ) : QueueState → QueueState → Prop where
  | enqueue (s : QueueState) (id : ℕ) : QueueStep limit s (enqueueOne s id)
  | startJob (s : QueueState) (id : ℕ) (rest : List ℕ)
      (hcap : s.activeJobs < limit) (hq : s.backlog = id :: rest) :
      QueueStep limit s
        { s with
          backlog := rest
          activeJobs := s.activeJobs + 1
          admitted := s.admitted ++ [id] }
  | finish (s : QueueState) (h : 0 < s.activeJobs) :
      QueueStep limit s { s with activeJobs := s.activeJobs - 1 }

/-- States the queue can reach from start-up. -/
inductive QueueReachable (limit : ℕ) : QueueState → Prop where
  | init : QueueReachable limit initialQueueState
  | step {s t : QueueState} :
      QueueReachable limit s → QueueStep limit s t → QueueReachable limit t

/-- A persisted document as seen by the start-up scan. -/
structure StoredDocument where
  id : ℕ
  status : DocumentStatus
deriving DecidableEq

/-- The where-clause of requeuePending: status in [PENDING, PROCESSING]. -/
def pendingOrProcessing (d : StoredDocument) : Bool :=
  d.status == .PENDING || d.status == .PROCESSING

/-- requeuePending: findMany over the store filtered to PENDING or
PROCESSING, then enqueue each id in order. -/
def requeuePending (db : List StoredDocument) (s : QueueState) : QueueState :=
  ((db.filter pendingOrProcessing).map StoredDocument.id).foldl enqueueOne s

/-- onModuleInit of the queue-based variant: the queue starts empty and
requeuePending refills it from the store. -/
def onModuleInitQueueState (db : List StoredDocument) : QueueState :=
  requeuePending db initialQueueState

/-! ### Extraction adapter retry and polling protocol
(AzureDocIntelService.analyzeWithRetry, src/unnamed/part_003) -/

/-- MAX_RETRIES of AzureDocIntelService. -/
def MAX_RETRIES : ℕ := 3

/-- POLLING_INTERVAL_MS of AzureDocIntelService. -/
def POLLING_INTERVAL_MS : ℕ := 3000

/-- What one POST of the analyze request can come back as. -/
inductive SubmitResponse where
  | rateLimited (retryAfterSeconds : Option ℕ)
  | accepted
  | httpError (code : ℕ)
deriving DecidableEq

/-- What one GET of the operation handle can come back as: a 429, or a
body carrying a status string. -/
inductive PollResponse where
  | rateLimited (retryAfterSeconds : Option ℕ)
  | status (s : List Char)
deriving DecidableEq

/-- The failures the adapter can raise. scriptExhausted is a modelling
artefact marking a response script too short to drive the code to an
outcome. -/
inductive AdapterError where
  | rateLimitExceeded
  | httpError (code : ℕ)
  | analysisFailed (status : List Char)
  | scriptExhausted
deriving DecidableEq

deriving instance DecidableEq for Except

/-- calculateBackoff: 5000 * 2 ^ retryCount plus a random jitter, modelled
by an arbitrary jitter function. -/
def calculateBackoff (jitter : ℕ → ℕ) (retryCount : ℕ) : ℕ :=
  5000 * 2 ^ retryCount + jitter retryCount

/-- The wait before a submit retry: Retry-After seconds when the header is
present, the exponential backoff otherwise. -/
def submitRetryWait (jitter : ℕ → ℕ) (ra : Option ℕ) (retryCount : ℕ) : ℕ :=
  match ra with
  | some seconds => seconds * 1000
  | none => calculateBackoff jitter retryCount

/-- The wait before a poll retry after a 429: Retry-After seconds when the
header is present, a fixed 5000 ms otherwise — not an exponential
backoff. -/
def pollRetryWait (ra : Option ℕ) : ℕ :=
  match ra with
  | some seconds => seconds * 1000
  | none => 5000

/-- The submit side of analyzeWithRetry over a script of responses,
returning the waits slept and either the error raised or the script left
for polling. A 429 with retryCount < MAX_RETRIES sleeps and re-submits
with retryCount + 1; a 429 at the cap raises; any other non-ok,
non-202 response raises. -/
def submitWithRetry (jitter : ℕ → ℕ) :
    List SubmitResponse → ℕ → List ℕ × Except AdapterError (List SubmitResponse)
  | [], _ => ([], .error .scriptExhausted)
  | .rateLimited ra :: rest, retryCount =>
    if retryCount < MAX_RETRIES then
      let (waits, r) := submitWithRetry jitter rest (retryCount + 1)
      (submitRetryWait jitter ra retryCount :: waits, r)
    else ([], .error .rateLimitExceeded)
  | .accepted :: rest, _ => ([], .ok rest)
  | .httpError code :: _, _ => ([], .error (.httpError code))

/-- The polling loop of analyzeWithRetry: a 429 sleeps pollRetryWait and
continues — without touching any retry counter — and a NotStarted or
Running body sleeps the polling interval and continues; any other body
ends the loop with its status. -/
def pollUntilTerminal : List PollResponse → List ℕ × Except AdapterError (List Char)
  | [] => ([], .error .scriptExhausted)
  | .rateLimited ra :: rest =>
    let (waits, r) := pollUntilTerminal rest
    (pollRetryWait ra :: waits, r)
  | .status s :: rest =>
    if s = "NotStarted".data ∨ s = "Running".data then
      let (waits, r) := pollUntilTerminal rest
      (POLLING_INTERVAL_MS :: waits, r)
    else ([], .ok s)

/-- How many consecutive 429 poll responses the loop retries through
before reaching a terminal body. -/
def pollRateLimitRetries : List PollResponse → ℕ
  | [] => 0
  | .rateLimited _ :: rest => 1 + pollRateLimitRetries rest
  | .status s :: rest =>
    if s = "NotStarted".data ∨ s = "Running".data then pollRateLimitRetries rest
    else 0

/-- The whole protocol: submit with retries, then poll to a terminal
status; only Succeeded yields a result, any other terminal status raises
an error carrying it. Returns all waits slept with the outcome. -/
def analyzeProtocol (jitter : ℕ → ℕ) (submits : List SubmitResponse)
    (polls : List PollResponse) : List ℕ × Except AdapterError (List Char) :=
  match submitWithRetry jitter submits 0 with
  | (waits, .error e) => (waits, .error e)
  | (waits, .ok _) =>
    match pollUntilTerminal polls with
    | (pwaits, .error e) => (waits ++ pwaits, .error e)
    | (pwaits, .ok s) =>
      if s = "Succeeded".data then (waits ++ pwaits, .ok s)
      else (waits ++ pwaits, .error (.analysisFailed s))

/-! ### Duplicate checker (DocumentsService.checkInvoiceExists) -/

/-- The reply shape of the invoices.checkExists RPC; doesExist carries the
exists flag of the source. -/
structure InvoiceExistsResult where
  doesExist : Bool
  invoiceId : Option (List Char)
deriving DecidableEq

/-- checkInvoiceExists: forward the RPC reply, and turn any thrown error —
timeout, unreachable service, anything — into exists: false. -/
def checkInvoiceExists (rpc : Except (List Char) InvoiceExistsResult) :
    InvoiceExistsResult :=
  match rpc with
  | .ok r => r
  | .error _ => { doesExist := false, invoiceId := none }

/-! ### Transactional persistence (DocumentsService.persistExtraction) -/

/-- One line of the canonical ExtractionResult
(interfaces/analysis-result.interface). -/
structure ExtractedLineItem where
  ProductCode : Option (List Char)
  ProductDescription : Option (List Char)
  ProductUnit : Option (List Char)
  UnitPrice : Option ℚ
  UnitCount : Option (List Char)
  LinePrice : Option ℚ
  Quantity : Option ℚ
  LineAmount : Option ℚ
  TaxIndicator : Option (List Char)
  DiscountCode : Option (List Char)
  AdditionalReference : Option (List Char)
deriving DecidableEq

/-- The canonical ExtractionResult handed to persistExtraction. -/
structure ExtractionResult where
  supplierName : Option (List Char)
  supplierTaxId : Option (List Char)
  invoiceNumber : Option (List Char)
  issueDate : Option (List Char)
  total : Option ℚ
  taxes : Option ℚ
  currency : Option (List Char)
  lines : List ExtractedLineItem
deriving DecidableEq

/-- An Extraction row; documentId carries the unique constraint. -/
structure ExtractionRow where
  id : ℕ
  documentId : ℕ
  supplierName : Option (List Char)
  supplierTaxId : Option (List Char)
  invoiceNumber : Option (List Char)
  issueDate : Option (List Char)
  totalAmount : Option ℚ
  taxAmount : Option ℚ
  currency : Option (List Char)
  rawResponse : Option ExtractionResult
deriving DecidableEq

/-- A LineItem row owned by an Extraction. -/
structure LineItemRow where
  extractionId : ℕ
  productCode : Option (List Char)
  description : Option (List Char)
  productUnit : Option (List Char)
  unitCount : Option (List Char)
  quantity : Option ℚ
  unitPrice : Option ℚ
  linePrice : Option ℚ
  total : Option ℚ
  taxIndicator : Option (List Char)
  discountCode : Option (List Char)
  additionalReference : Option (List Char)
deriving DecidableEq

/-- The two tables persistExtraction touches, with the id counter the
store draws fresh Extraction ids from. -/
structure AnalyzerDb where
  extractions : List ExtractionRow
  lineItems : List LineItemRow
  nextExtractionId : ℕ
deriving DecidableEq

/-- The upsert of persistExtraction, keyed on documentId. On update, a
field written as value ?? undefined keeps the stored value when the new
one is null, issueDate is overwritten even by null, and the toDecimal
amounts overwrite with null when absent — mirroring create/update blocks
of the source. Returns the affected row and the new table state. -/
def upsertExtraction (db : AnalyzerDb) (documentId : ℕ) (ex : ExtractionResult) :
    ExtractionRow × AnalyzerDb :=
  match db.extractions.find? (fun r => r.documentId == documentId) with
  | some row =>
    let updated : ExtractionRow :=
      { row with
        supplierName := ex.supplierName <|> row.supplierName
        supplierTaxId := ex.supplierTaxId <|> row.supplierTaxId
        invoiceNumber := ex.invoiceNumber <|> row.invoiceNumber
        issueDate := ex.issueDate
        totalAmount := ex.total
        taxAmount := ex.taxes
        currency := ex.currency <|> row.currency
        rawResponse := some ex }
    (updated,
      { db with
        extractions :=
          db.extractions.map (fun r => if r.documentId == documentId then updated else r) })
  | none =>
    let row : ExtractionRow :=
      { id := db.nextExtractionId, documentId := documentId,
        supplierName := ex.supplierName, supplierTaxId := ex.supplierTaxId,
        invoiceNumber := ex.invoiceNumber, issueDate := ex.issueDate,
        totalAmount := ex.total, taxAmount := ex.taxes,
        currency := ex.currency, rawResponse := some ex }
    (row,
      { db with
        extractions := db.extractions ++ [row]
        nextExtractionId := db.nextExtractionId + 1 })

/-- The id of the Extraction row the upsert affects. -/
def upsertRecordId (db : AnalyzerDb) (documentId : ℕ) (ex : ExtractionResult) : ℕ :=
  (upsertExtraction db documentId ex).1.id

/-- The createMany row built from one canonical line. -/
def lineRowOf (extractionId : ℕ) (line : ExtractedLineItem) : LineItemRow :=
  { extractionId := extractionId
    productCode := line.ProductCode
    description := line.ProductDescription
    productUnit := line.ProductUnit
    unitCount := line.UnitCount
    quantity := line.Quantity
    unitPrice := line.UnitPrice
    linePrice := line.LinePrice
    total := line.LineAmount
    taxIndicator := line.TaxIndicator
    discountCode := line.DiscountCode
    additionalReference := line.AdditionalReference }

/-- The transaction body of persistExtraction: upsert the Extraction by
documentId, deleteMany the LineItems of that Extraction, then createMany
the new lines (the source skips the createMany when the list is empty). -/
def persistExtraction (db : AnalyzerDb) (documentId : ℕ) (ex : ExtractionResult) :
    AnalyzerDb :=
  let (record, db1) := upsertExtraction db documentId ex
  let db2 :=
    { db1 with lineItems := db1.lineItems.filter (fun li => !(li.extractionId == record.id)) }
  if ex.lines.isEmpty then db2
  else { db2 with lineItems := db2.lineItems ++ ex.lines.map (lineRowOf record.id) }

/-- The tail of processDocument around the transaction. Prisma
$transaction either commits the whole write set or none of it: txFailure
carries the error message of a failed transaction, in which case the
store is unchanged and the catch block marks the Document FAILED; on
commit the Document is marked DONE. -/
def persistAndFinish (db : AnalyzerDb) (doc : DocumentRow) (documentId : ℕ)
    (ex : ExtractionResult) (blob : Option (List Char))
    (txFailure : Option (List Char)) : AnalyzerDb × DocumentRow :=
  match txFailure with
  | some message => (db, markFailed doc message)
  | none => (persistExtraction db documentId ex, markDone doc blob)

/-! ### Concrete fixtures used by witnesses -/

/-- A canonical line with quantity 2.5 and unit price 3.60. -/
def exampleLine : ExtractedLineItem :=
  { ProductCode := some ("P1".data), ProductDescription := some ("Tomatoes".data),
    ProductUnit := none, UnitPrice := some (18 / 5), UnitCount := none,
    LinePrice := none, Quantity := some (5 / 2), LineAmount := some 9,
    TaxIndicator := none, DiscountCode := none, AdditionalReference := none }

/-- A canonical extraction result with one line. -/
def exampleExtraction : ExtractionResult :=
  { supplierName := some ("ACME".data), supplierTaxId := some ("A12345678".data),
    invoiceNumber := some ("F-001".data), issueDate := none,
    total := some 9, taxes := none, currency := some ("EUR".data),
    lines := [exampleLine] }

/-- A stale Extraction row for document 1 left by an earlier run. -/
def staleRow : ExtractionRow :=
  { id := 0, documentId := 1, supplierName := none, supplierTaxId := none,
    invoiceNumber := none, issueDate := none, totalAmount := none,
    taxAmount := none, currency := none, rawResponse := none }

/-- A stale line item owned by the stale Extraction. -/
def staleLineItem : LineItemRow :=
  { extractionId := 0, productCode := none, description := none,
    productUnit := none, unitCount := none, quantity := none,
    unitPrice := none, linePrice := none, total := none,
    taxIndicator := none, discountCode := none, additionalReference := none }

/-- A store holding the stale extraction and its stale line item. -/
def exampleDb : AnalyzerDb :=
  { extractions := [staleRow], lineItems := [staleLineItem], nextExtractionId := 5 }

/-- A document mid-processing. -/
def processingDoc : DocumentRow := markProcessing (createPendingDocument [1])

/-! ## Theorems -/

/-- C8: tax-id normalization maps "ES-A12345678" to "A12345678" —
uppercasing, stripping the leading ES and the separator characters — the
validator rejects "1234", normalization of an empty result ("ES" cleans to
the empty string) returns null, and a null input returns null; all the
functions involved are total, so no input can raise. -/
theorem taxId_normalization_and_validation :
    normalizeSpanishTaxId (some ("ES-A12345678".data)) = some ("A12345678".data) ∧
      isValidSpanishNif (some ("1234".data)) = false ∧
      normalizeSpanishTaxId (some ("ES".data)) = none ∧
      normalizeSpanishTaxId none = none ∧
      isValidSpanishNif none = false := by
  decide

/-- C5: the amount normalizer does not do what the claim says on
"1.234,56". The replace of [^0-9.,-] keeps the thousands dot, only the
first comma becomes a dot, and parseFloat stops at the second dot, so both
normalizeNumber and parseEuropeanPrice turn "1.234,56" into 1.234 — not
1234.56. The other parts of the claim do hold: "1234,56" normalizes to
1234.56, and non-numeric or non-finite input normalizes to null without
raising. -/
theorem normalizeNumber_mangles_thousands_separator :
    normalizeNumber (JsValue.str ("1.234,56".data)) = some (617 / 500) ∧
      normalizeNumber (JsValue.str ("1.234,56".data)) ≠ some (123456 / 100) ∧
      parseEuropeanPrice (some ("1.234,56".data)) = some (617 / 500) ∧
      normalizeNumber (JsValue.str ("1234,56".data)) = some (123456 / 100) ∧
      normalizeNumber (JsValue.str ("abc".data)) = none ∧
      normalizeNumber JsValue.inf = none ∧
      normalizeNumber JsValue.nan = none := by
  have h2 : normalizeNumber (JsValue.str ("1234,56".data))
      = some ((digitsToNat ("1234".data) : ℚ) + fracValue ("56".data)) := by
    show jsParseFloat (replaceFirstComma (List.filter isKeptNumChar ("1234,56".data))) = _
    rw [show replaceFirstComma (List.filter isKeptNumChar ("1234,56".data))
          = "1234.56".data from by decide]
    rfl
  refine ⟨?_, ?_, ?_, ?_, ?_, rfl, rfl⟩
  · set_option maxRecDepth 100000 in with_unfolding_all decide
  · set_option maxRecDepth 100000 in with_unfolding_all decide
  · set_option maxRecDepth 100000 in with_unfolding_all decide
  · rw [h2]
    norm_num [fracValue, show digitsToNat ("1234".data) = 1234 from by decide,
      show digitsToNat ("56".data) = 56 from by decide,
      show ("56".data).length = 2 from by decide]
  · set_option maxRecDepth 100000 in with_unfolding_all decide

/-- C7: whenever the cross-service existence RPC itself fails — the send
throws for any reason, with any message — checkInvoiceExists swallows the
error and answers exists: false, so a duplicate-check outage never blocks
processing. -/
theorem checkInvoiceExists_fails_open
    (rpc : Except (List Char) InvoiceExistsResult) (message : List Char)
    (h : rpc = Except.error message) :
    checkInvoiceExists rpc = { doesExist := false, invoiceId := none } := by
  subst h
  rfl

/-- Witness for C7 at a concrete timeout error. -/
theorem checkInvoiceExists_fails_open_witness :
    checkInvoiceExists (Except.error ("timeout".data)) =
      { doesExist := false, invoiceId := none } :=
  checkInvoiceExists_fails_open (Except.error ("timeout".data)) ("timeout".data) rfl

/-- C9 counterexample: the FAILED transition does not preserve the claimed
invariant. A PROCESSING document holding its raw bytes satisfies the
claimed invariant, but the catch-block update sets status FAILED and
leaves fileData untouched, so the resulting row is FAILED with non-null
raw bytes — fileData is then non-null outside PENDING/PROCESSING. -/
theorem claimedDocInvariant_not_preserved_by_markFailed :
    claimedDocInvariant (markProcessing (createPendingDocument [0])) = true ∧
      claimedDocInvariant
        (markFailed (markProcessing (createPendingDocument [0])) ("boom".data)) = false ∧
      (markFailed (markProcessing (createPendingDocument [0])) ("boom".data)).status
        = DocumentStatus.FAILED ∧
      (markFailed (markProcessing (createPendingDocument [0])) ("boom".data)).fileData
        = some [0] := by
  decide

/-- C9 amended: every pipeline transition preserves the amended record
invariant — status ranges over the four-value enum by typing, errorReason
is non-null only when FAILED, and fileData is null once DONE (the FAILED
transition retains the bytes). The PROCESSING and DONE transitions clear
errorReason, the DONE transition clears fileData, and the FAILED
transition sets an errorReason truncated to at most 500 characters while
leaving fileData as it was. -/
theorem docInvariant_preserved_by_transitions (d : DocumentRow) (bytes : List ℕ)
    (blob : Option (List Char)) (message : List Char) :
    docInvariant (createPendingDocument bytes) = true ∧
      docInvariant (markProcessing d) = true ∧
      (markProcessing d).errorReason = none ∧
      docInvariant (markDone d blob) = true ∧
      (markDone d blob).errorReason = none ∧
      (markDone d blob).fileData = none ∧
      docInvariant (markFailed d message) = true ∧
      (markFailed d message).errorReason = some (message.take 500) ∧
      (message.take 500).length ≤ 500 ∧
      (markFailed d message).fileData = d.fileData := by
  refine ⟨rfl, ?_, rfl, ?_, rfl, rfl, ?_, rfl, ?_, rfl⟩
  · simp [docInvariant, markProcessing]
  · simp [docInvariant, markDone]
  · simp [docInvariant, markFailed]
  · simp [List.length_take]

/-- C6: for every raw line whose explicit total normalizes to null while
quantity and unit price both normalize to numbers, normalizeLine derives
the total as Number((quantity * unitPrice).toFixed(2)) — rounding to two
decimals — and the line survives the noise-suppression filter. -/
theorem normalizeLine_derives_missing_total (producto : RawProducto) (q p : ℚ)
    (hq : normalizeNumber producto.cantidad = some q)
    (hp : normalizeNumber producto.precio = some p)
    (ht : normalizeNumber producto.total = none) :
    (normalizeLine producto).total = some (jsToFixed2 (q * p)) ∧
      keepLine (normalizeLine producto) = true := by
  simp [normalizeLine, keepLine, hq, hp, ht]

/-- Witness for C6: quantity 2.5 and unit price 3.60 with a null explicit
total derive the total 9. -/
theorem normalizeLine_derives_missing_total_witness :
    jsToFixed2 ((5 / 2 : ℚ) * (18 / 5)) = 9 ∧
      (normalizeLine
          { numero_albaran := JsValue.null, referencia := JsValue.null,
            descripcion := JsValue.null, cantidad := JsValue.num (5 / 2),
            precio := JsValue.num (18 / 5), total := JsValue.null }).total
        = some (jsToFixed2 ((5 / 2 : ℚ) * (18 / 5))) ∧
      keepLine
        (normalizeLine
          { numero_albaran := JsValue.null, referencia := JsValue.null,
            descripcion := JsValue.null, cantidad := JsValue.num (5 / 2),
            precio := JsValue.num (18 / 5), total := JsValue.null }) = true := by
  refine ⟨by set_option maxRecDepth 100000 in with_unfolding_all decide, ?_, ?_⟩
  · exact (normalizeLine_derives_missing_total
      { numero_albaran := JsValue.null, referencia := JsValue.null,
        descripcion := JsValue.null, cantidad := JsValue.num (5 / 2),
        precio := JsValue.num (18 / 5), total := JsValue.null }
      (5 / 2) (18 / 5) rfl rfl rfl).1
  · exact (normalizeLine_derives_missing_total
      { numero_albaran := JsValue.null, referencia := JsValue.null,
        descripcion := JsValue.null, cantidad := JsValue.num (5 / 2),
        precio := JsValue.num (18 / 5), total := JsValue.null }
      (5 / 2) (18 / 5) rfl rfl rfl).2

/-- A character that is not ASCII lowercase is unchanged by the uppercase
map. -/
theorem jsToUpperChar_eq_self {c : Char} (h : jsIsLowerAZ c = false) :
    jsToUpperChar c = c := by
  unfold jsToUpperChar
  simp [h]

/-- Characters with code below 97 are not ASCII lowercase. -/
theorem jsIsLowerAZ_eq_false {c : Char} (h : c.toNat < 97) : jsIsLowerAZ c = false := by
  have hnot : ¬(97 ≤ c.toNat) := by omega
  simp [jsIsLowerAZ, hnot]

/-- Code bounds of a digit character. -/
theorem jsIsDigit_bounds {c : Char} (h : jsIsDigit c = true) :
    48 ≤ c.toNat ∧ c.toNat ≤ 57 := by
  simpa [jsIsDigit] using h

/-- Code bounds of an uppercase character. -/
theorem jsIsUpperAZ_bounds {c : Char} (h : jsIsUpperAZ c = true) :
    65 ≤ c.toNat ∧ c.toNat ≤ 90 := by
  simpa [jsIsUpperAZ] using h

/-- Digits and letters are not removed by the whitespace-or-dash strip of
isValidSpanishNif. -/
theorem isNifSeparator_eq_false {c : Char} (h : 48 ≤ c.toNat) :
    isNifSeparator c = false := by
  have hs : isJsSpace c = false := by
    have h1 : ¬(c.toNat = 32) := by omega
    have h2 : ¬(c.toNat ≤ 13) := by omega
    simp [isJsSpace, h1, h2]
  have hd : (c == '-') = false := by
    refine beq_eq_false_iff_ne.mpr ?_
    intro he
    rw [he] at h
    exact absurd h (by decide)
  simp [isNifSeparator, hs, hd]

/-- The uppercase map fixes a list of non-lowercase characters. -/
theorem map_jsToUpperChar_id {l : List Char} (h : ∀ x ∈ l, jsIsLowerAZ x = false) :
    l.map jsToUpperChar = l := by
  induction l with
  | nil => rfl
  | cons a t ih =>
    simp only [List.map_cons]
    rw [jsToUpperChar_eq_self (h a (List.mem_cons_self a t)),
      ih (fun x hx => h x (List.mem_cons_of_mem a hx))]

/-- C10: isValidSpanishNif is a pure shape test — every string of exactly
eight digits followed by any letter A-Z matches the DNI regex and is
accepted, whatever the final letter; no control-letter arithmetic is
performed anywhere in the validator. -/
theorem isValidSpanishNif_ignores_dni_control_letter
    (ds : List Char) (c : Char) (hlen : ds.length = 8)
    (hds : ∀ x ∈ ds, jsIsDigit x = true) (hc : jsIsUpperAZ c = true) :
    isValidSpanishNif (some (ds ++ [c])) = true := by
  have hcb := jsIsUpperAZ_bounds hc
  have hne : ¬(ds ++ [c]).isEmpty = true := by
    simp
  have hmap : (ds ++ [c]).map jsToUpperChar = ds ++ [c] := by
    apply map_jsToUpperChar_id
    intro x hx
    rcases List.mem_append.mp hx with hx | hx
    · exact jsIsLowerAZ_eq_false (by have := jsIsDigit_bounds (hds x hx); omega)
    · rcases List.mem_singleton.mp hx with rfl
      exact jsIsLowerAZ_eq_false (by omega)
  have hfil : (ds ++ [c]).filter (fun x => !isNifSeparator x) = ds ++ [c] := by
    apply List.filter_eq_self.mpr
    intro x hx
    rcases List.mem_append.mp hx with hx | hx
    · have := jsIsDigit_bounds (hds x hx)
      simp [isNifSeparator_eq_false (show 48 ≤ x.toNat by omega)]
    · rcases List.mem_singleton.mp hx with rfl
      simp [isNifSeparator_eq_false (show 48 ≤ x.toNat by omega)]
  have hdni : dniShape (ds ++ [c]) = true := by
    unfold dniShape
    have h9 : (ds ++ [c]).length = 9 := by simp [hlen]
    have htake : (ds ++ [c]).take 8 = ds := by
      rw [← hlen]
      exact List.take_left ds [c]
    have hdrop : (ds ++ [c]).drop 8 = [c] := by
      rw [← hlen]
      exact List.drop_left ds [c]
    have hcu : jsToUpperChar c = c :=
      jsToUpperChar_eq_self (jsIsLowerAZ_eq_false (show c.toNat < 97 by omega))
    rw [htake, hdrop]
    simp [h9, List.all_eq_true.mpr hds, hcu, hc]
  simp only [isValidSpanishNif, hmap, hfil]
  rw [if_neg hne, hdni]
  simp

/-- Witness for C10: "12345678A" is accepted although the correct DNI
control letter for 12345678 is Z. -/
theorem isValidSpanishNif_ignores_dni_control_letter_witness :
    isValidSpanishNif (some ("12345678".data ++ ['A'])) = true :=
  isValidSpanishNif_ignores_dni_control_letter ("12345678".data) 'A'
    (by decide) (by decide) (by decide)

/-- C2: in every state the queue can reach — any burst of enqueues, any
interleaving of admissions and completions — the number of active jobs
never exceeds the configured concurrency limit, and admission is FIFO:
the ids handed to processDocument are exactly the oldest enqueued ids in
enqueue order, the backlog holding the rest in order. The configured
default of the limit (PROCESSING_CONCURRENCY) is 2. -/
theorem queue_never_exceeds_concurrency_limit (limit : ℕ) (s : QueueState)
    (h : QueueReachable limit s) :
    s.activeJobs ≤ limit ∧ s.enqueued = s.admitted ++ s.backlog ∧
      defaultProcessingConcurrency = 2 := by
  induction h with
  | init => exact ⟨Nat.zero_le _, rfl, rfl⟩
  | @step s t hr hs ih =>
    obtain ⟨ih1, ih2, -⟩ := ih
    cases hs with
    | enqueue id =>
      refine ⟨ih1, ?_, rfl⟩
      show s.enqueued ++ [id] = s.admitted ++ (s.backlog ++ [id])
      rw [ih2, List.append_assoc]
    | startJob id rest hcap hq =>
      refine ⟨hcap, ?_, rfl⟩
      show s.enqueued = (s.admitted ++ [id]) ++ rest
      rw [ih2, hq, List.append_assoc]
      rfl
    | finish hpos =>
      exact ⟨le_trans (Nat.sub_le _ _) ih1, ih2, rfl⟩

/-- Witness for C2: the state reached by enqueueing document 7 and
admitting it under limit 2. -/
theorem queue_never_exceeds_concurrency_limit_witness :
    (QueueState.mk [] 1 [7] [7]).activeJobs ≤ 2 ∧
      (QueueState.mk [] 1 [7] [7]).enqueued
        = (QueueState.mk [] 1 [7] [7]).admitted ++ (QueueState.mk [] 1 [7] [7]).backlog ∧
      defaultProcessingConcurrency = 2 :=
  queue_never_exceeds_concurrency_limit 2 (QueueState.mk [] 1 [7] [7])
    (QueueReachable.step
      (QueueReachable.step QueueReachable.init (QueueStep.enqueue initialQueueState 7))
      (QueueStep.startJob _ 7 [] (by decide) rfl))

/-- Enqueueing a list of ids appends them to the backlog in order. -/
theorem foldl_enqueueOne_backlog (ids : List ℕ) (s : QueueState) :
    (ids.foldl enqueueOne s).backlog = s.backlog ++ ids := by
  induction ids generalizing s with
  | nil => simp
  | cons a t ih =>
    show (t.foldl enqueueOne (enqueueOne s a)).backlog = _
    rw [ih]
    simp [enqueueOne]

/-- Enqueueing touches no job slot. -/
theorem foldl_enqueueOne_activeJobs (ids : List ℕ) (s : QueueState) :
    (ids.foldl enqueueOne s).activeJobs = s.activeJobs := by
  induction ids generalizing s with
  | nil => rfl
  | cons a t ih =>
    show (t.foldl enqueueOne (enqueueOne s a)).activeJobs = _
    rw [ih]
    rfl

/-- C3: the start-up scan — onModuleInit calling requeuePending — fills
the backlog with exactly the ids of the persisted documents whose status
is PENDING or PROCESSING, in store order; in particular every document
left PROCESSING by a prior crash is re-enqueued without manual
intervention, and no job slot is claimed yet at that point. -/
theorem startup_requeues_pending_and_processing (db : List StoredDocument)
    (d : StoredDocument) (hmem : d ∈ db) (hstatus : pendingOrProcessing d = true) :
    (onModuleInitQueueState db).backlog
        = (db.filter pendingOrProcessing).map StoredDocument.id ∧
      d.id ∈ (onModuleInitQueueState db).backlog ∧
      (onModuleInitQueueState db).activeJobs = 0 := by
  have hb : (onModuleInitQueueState db).backlog
      = (db.filter pendingOrProcessing).map StoredDocument.id := by
    unfold onModuleInitQueueState requeuePending
    rw [foldl_enqueueOne_backlog]
    simp [initialQueueState]
  refine ⟨hb, ?_, ?_⟩
  · rw [hb]
    exact List.mem_map.mpr ⟨d, List.mem_filter.mpr ⟨hmem, hstatus⟩, rfl⟩
  · unfold onModuleInitQueueState requeuePending
    rw [foldl_enqueueOne_activeJobs]
    rfl

/-- Witness for C3: a store holding a crashed PROCESSING document, a DONE
document and a PENDING document re-enqueues exactly the first and the
third. -/
theorem startup_requeues_pending_and_processing_witness :
    (onModuleInitQueueState
        [StoredDocument.mk 1 DocumentStatus.PROCESSING,
         StoredDocument.mk 2 DocumentStatus.DONE,
         StoredDocument.mk 3 DocumentStatus.PENDING]).backlog
        = (([StoredDocument.mk 1 DocumentStatus.PROCESSING,
             StoredDocument.mk 2 DocumentStatus.DONE,
             StoredDocument.mk 3 DocumentStatus.PENDING].filter
              pendingOrProcessing).map StoredDocument.id) ∧
      (StoredDocument.mk 1 DocumentStatus.PROCESSING).id ∈
        (onModuleInitQueueState
          [StoredDocument.mk 1 DocumentStatus.PROCESSING,
           StoredDocument.mk 2 DocumentStatus.DONE,
           StoredDocument.mk 3 DocumentStatus.PENDING]).backlog ∧
      (onModuleInitQueueState
        [StoredDocument.mk 1 DocumentStatus.PROCESSING,
         StoredDocument.mk 2 DocumentStatus.DONE,
         StoredDocument.mk 3 DocumentStatus.PENDING]).activeJobs = 0 :=
  startup_requeues_pending_and_processing
    [StoredDocument.mk 1 DocumentStatus.PROCESSING,
     StoredDocument.mk 2 DocumentStatus.DONE,
     StoredDocument.mk 3 DocumentStatus.PENDING]
    (StoredDocument.mk 1 DocumentStatus.PROCESSING) (by decide) (by decide)

/-- C4 counterexample: with the submit accepted, a poll script of five
consecutive 429 responses followed by a Succeeded body drives the adapter
to success — the polling loop waits and retries through all five 429s,
more than MAX_RETRIES = 3, and raises no error. A poll-side 429 is thus
retried beyond the fixed maximum retry count without raising, against the
claim. -/
theorem poll_rate_limit_retried_beyond_max :
    (analyzeProtocol (fun _ => 0) [SubmitResponse.accepted]
        (List.replicate 5 (PollResponse.rateLimited none)
          ++ [PollResponse.status ("Succeeded".data)])).2
      = Except.ok ("Succeeded".data) ∧
      pollRateLimitRetries
          (List.replicate 5 (PollResponse.rateLimited none)
            ++ [PollResponse.status ("Succeeded".data)]) = 5 ∧
      MAX_RETRIES = 3 := by
  decide

/-- The submit side consumes a run of n consecutive 429s below the cap,
sleeping the Retry-After or backoff wait for retry counts k, k+1, ... -/
theorem submitWithRetry_spec (jitter : ℕ → ℕ) (ra : Option ℕ)
    (rest : List SubmitResponse) (n : ℕ) :
    ∀ k, n + k ≤ MAX_RETRIES →
      submitWithRetry jitter
          (List.replicate n (SubmitResponse.rateLimited ra)
            ++ SubmitResponse.accepted :: rest) k
        = ((List.range' k n).map (submitRetryWait jitter ra), Except.ok rest) := by
  induction n with
  | zero =>
    intro k hk
    simp [submitWithRetry]
  | succ m ih =>
    intro k hk
    have hk2 : k < MAX_RETRIES := by omega
    rw [List.replicate_succ, List.cons_append]
    simp only [submitWithRetry, hk2, if_true, ih (k + 1) (by omega), List.range'_succ,
      List.map_cons]

/-- The polling loop walks through any number of 429s, sleeping
pollRetryWait for each, and ends with the first terminal body — no retry
counter, no cap. -/
theorem pollUntilTerminal_unbounded (ra : Option ℕ) (st : List Char)
    (hst : ¬(st = "NotStarted".data ∨ st = "Running".data)) :
    ∀ m, pollUntilTerminal
        (List.replicate m (PollResponse.rateLimited ra) ++ [PollResponse.status st])
      = (List.replicate m (pollRetryWait ra), Except.ok st) := by
  intro m
  induction m with
  | zero =>
    simp [pollUntilTerminal, hst]
  | succ k ih =>
    rw [List.replicate_succ, List.cons_append]
    simp [pollUntilTerminal, ih, List.replicate_succ]

/-- C4 amended: rate-limit handling differs between the two steps. A 429
on the submit call waits — the Retry-After duration when present, the
exponential backoff with jitter otherwise — and re-submits, up to
MAX_RETRIES = 3 retries, a further 429 raising an error; but a 429 on a
poll call waits — Retry-After when present, a fixed 5000 ms otherwise —
and retries the poll without touching any retry counter, so poll-side
429s are retried without bound: however many arrive, the loop never
raises on them. -/
theorem rate_limit_retry_cap_submit_only (jitter : ℕ → ℕ) (ra : Option ℕ)
    (rest : List SubmitResponse) (n : ℕ) (st : List Char)
    (hn : n ≤ MAX_RETRIES)
    (hst : ¬(st = "NotStarted".data ∨ st = "Running".data)) :
    submitWithRetry jitter
        (List.replicate (MAX_RETRIES + 1) (SubmitResponse.rateLimited ra) ++ rest) 0
      = ((List.range' 0 MAX_RETRIES).map (submitRetryWait jitter ra),
         Except.error AdapterError.rateLimitExceeded) ∧
      submitWithRetry jitter
          (List.replicate n (SubmitResponse.rateLimited ra)
            ++ SubmitResponse.accepted :: rest) 0
        = ((List.range' 0 n).map (submitRetryWait jitter ra), Except.ok rest) ∧
      ∀ m, pollUntilTerminal
          (List.replicate m (PollResponse.rateLimited ra) ++ [PollResponse.status st])
        = (List.replicate m (pollRetryWait ra), Except.ok st) := by
  refine ⟨?_, submitWithRetry_spec jitter ra rest n 0 (by omega),
    pollUntilTerminal_unbounded ra st hst⟩
  rfl

/-- Witness for C4 amended: jitter 0, no Retry-After header, two submit
429s then acceptance, and five poll 429s before Succeeded. -/
theorem rate_limit_retry_cap_submit_only_witness :
    submitWithRetry (fun _ => 0)
        (List.replicate (MAX_RETRIES + 1) (SubmitResponse.rateLimited none) ++ []) 0
      = ((List.range' 0 MAX_RETRIES).map (submitRetryWait (fun _ => 0) none),
         Except.error AdapterError.rateLimitExceeded) ∧
      submitWithRetry (fun _ => 0)
          (List.replicate 2 (SubmitResponse.rateLimited none)
            ++ SubmitResponse.accepted :: []) 0
        = ((List.range' 0 2).map (submitRetryWait (fun _ => 0) none), Except.ok []) ∧
      pollUntilTerminal
          (List.replicate 5 (PollResponse.rateLimited none)
            ++ [PollResponse.status ("Succeeded".data)])
        = (List.replicate 5 (pollRetryWait none), Except.ok ("Succeeded".data)) :=
  ⟨(rate_limit_retry_cap_submit_only (fun _ => 0) none [] 2 ("Succeeded".data)
      (by decide) (by decide)).1,
   (rate_limit_retry_cap_submit_only (fun _ => 0) none [] 2 ("Succeeded".data)
      (by decide) (by decide)).2.1,
   (rate_limit_retry_cap_submit_only (fun _ => 0) none [] 2 ("Succeeded".data)
      (by decide) (by decide)).2.2 5⟩

/-- Mapping a predicate-preserving function over a table leaves the count
of matching rows unchanged. -/
theorem countP_map_pred_preserving (l : List ExtractionRow) (p : ExtractionRow → Bool)
    (f : ExtractionRow → ExtractionRow) (hf : ∀ r, p (f r) = p r) :
    (l.map f).countP p = l.countP p := by
  induction l with
  | nil => rfl
  | cons a t ih =>
    rw [List.map_cons, List.countP_cons, List.countP_cons, ih, hf]

/-- The upsert never touches the LineItem table. -/
theorem upsertExtraction_lineItems (db : AnalyzerDb) (documentId : ℕ)
    (ex : ExtractionResult) :
    (upsertExtraction db documentId ex).2.lineItems = db.lineItems := by
  unfold upsertExtraction
  cases hfind : db.extractions.find? (fun r => r.documentId == documentId) <;> rfl

/-- After the upsert there is exactly one Extraction row for the document:
an existing row is updated in place, never duplicated; a missing row is
inserted once. -/
theorem upsertExtraction_countP (db : AnalyzerDb) (documentId : ℕ)
    (ex : ExtractionResult)
    (hwf : db.extractions.countP (fun r => r.documentId == documentId) ≤ 1) :
    (upsertExtraction db documentId ex).2.extractions.countP
        (fun r => r.documentId == documentId) = 1 := by
  unfold upsertExtraction
  cases hfind : db.extractions.find? (fun r => r.documentId == documentId) with
  | some row =>
    have hrow : (row.documentId == documentId) = true := by
      simpa using List.find?_some hfind
    have hmem : row ∈ db.extractions := List.mem_of_find?_eq_some hfind
    have hpos : 0 < db.extractions.countP (fun r => r.documentId == documentId) :=
      List.countP_pos_iff.mpr ⟨row, hmem, hrow⟩
    dsimp only
    refine Eq.trans (countP_map_pred_preserving db.extractions _ _ ?_) ?_
    · intro r
      by_cases hr : (r.documentId == documentId) = true
      · rw [if_pos hr]
        show (row.documentId == documentId) = (r.documentId == documentId)
        rw [hrow, hr]
      · rw [if_neg hr]
    · omega
  | none =>
    have hz : db.extractions.countP (fun r => r.documentId == documentId) = 0 :=
      List.countP_eq_zero.mpr (List.find?_eq_none.mp hfind)
    dsimp only
    rw [List.countP_append, hz]
    simp

/-- Rows of other documents survive the upsert untouched. -/
theorem upsertExtraction_mem (db : AnalyzerDb) (documentId : ℕ)
    (ex : ExtractionResult) (r : ExtractionRow)
    (hr : r ∈ (upsertExtraction db documentId ex).2.extractions)
    (hne : r.documentId ≠ documentId) : r ∈ db.extractions := by
  revert hr
  unfold upsertExtraction
  cases hfind : db.extractions.find? (fun x => x.documentId == documentId) with
  | some row =>
    dsimp only
    intro hr
    obtain ⟨a, ha, hra⟩ := List.mem_map.mp hr
    by_cases hp : (a.documentId == documentId) = true
    · rw [if_pos hp] at hra
      exfalso
      apply hne
      have hrow : row.documentId = documentId := by
        have h := List.find?_some hfind
        simpa using h
      rw [← hra]
      exact hrow
    · rw [if_neg hp] at hra
      exact hra ▸ ha
  | none =>
    dsimp only
    intro hr
    rcases List.mem_append.mp hr with h | h
    · exact h
    · exfalso
      apply hne
      rcases List.mem_singleton.mp h with rfl
      rfl

/-- The Extraction table after the whole transaction body is the one the
upsert produced. -/
theorem persistExtraction_extractions (db : AnalyzerDb) (documentId : ℕ)
    (ex : ExtractionResult) :
    (persistExtraction db documentId ex).extractions
      = (upsertExtraction db documentId ex).2.extractions := by
  unfold persistExtraction
  rcases h : upsertExtraction db documentId ex with ⟨record, db1⟩
  dsimp only
  split <;> rfl

/-- The LineItem table after the transaction body: the prior lines of the
affected Extraction are gone and exactly the new lines stand in their
place. -/
theorem persistExtraction_lineItems (db : AnalyzerDb) (documentId : ℕ)
    (ex : ExtractionResult) :
    (persistExtraction db documentId ex).lineItems
      = db.lineItems.filter
          (fun li => !(li.extractionId == upsertRecordId db documentId ex))
        ++ ex.lines.map (lineRowOf (upsertRecordId db documentId ex)) := by
  unfold persistExtraction upsertRecordId
  have hli := upsertExtraction_lineItems db documentId ex
  rcases h : upsertExtraction db documentId ex with ⟨record, db1⟩
  rw [h] at hli
  dsimp only
  dsimp only at hli
  by_cases hl : ex.lines.isEmpty
  · rw [if_pos hl, List.isEmpty_iff.mp hl]
    simp [hli]
  · rw [if_neg hl]
    rw [hli]

/-- C1: persistExtraction inside processDocument. On commit, the
transaction body upserts the Extraction keyed by documentId — exactly one
row for the document afterwards, rows of other documents untouched —
removes every prior LineItem of that Extraction and bulk-inserts exactly
the new lines, and the document is marked DONE. When the transaction
fails, the store is exactly the prior store — nothing partial — and the
catch block marks the document FAILED, never DONE. -/
theorem persistExtraction_atomic (db : AnalyzerDb) (doc : DocumentRow)
    (documentId : ℕ) (ex : ExtractionResult) (blob : Option (List Char))
    (message : List Char)
    (hwf : db.extractions.countP (fun r => r.documentId == documentId) ≤ 1) :
    persistAndFinish db doc documentId ex blob (some message)
        = (db, markFailed doc message) ∧
      (markFailed doc message).status = DocumentStatus.FAILED ∧
      persistAndFinish db doc documentId ex blob none
        = (persistExtraction db documentId ex, markDone doc blob) ∧
      (markDone doc blob).status = DocumentStatus.DONE ∧
      (persistExtraction db documentId ex).extractions.countP
          (fun r => r.documentId == documentId) = 1 ∧
      (∀ r ∈ (persistExtraction db documentId ex).extractions,
        r.documentId ≠ documentId → r ∈ db.extractions) ∧
      (persistExtraction db documentId ex).lineItems
        = db.lineItems.filter
            (fun li => !(li.extractionId == upsertRecordId db documentId ex))
          ++ ex.lines.map (lineRowOf (upsertRecordId db documentId ex)) := by
  refine ⟨rfl, rfl, rfl, rfl, ?_, ?_, persistExtraction_lineItems db documentId ex⟩
  · rw [persistExtraction_extractions]
    exact upsertExtraction_countP db documentId ex hwf
  · intro r hr hne
    rw [persistExtraction_extractions] at hr
    exact upsertExtraction_mem db documentId ex r hr hne

/-- Witness for C1: a store already holding a stale Extraction for
document 1 with a stale line item; a failing transaction leaves it
untouched and marks the document FAILED, a committing one leaves exactly
one Extraction row for document 1 and replaces the line items. -/
theorem persistExtraction_atomic_witness :
    persistAndFinish exampleDb processingDoc 1 exampleExtraction
        (some ("blob".data)) (some ("tx failed".data))
      = (exampleDb, markFailed processingDoc ("tx failed".data)) ∧
      (markFailed processingDoc ("tx failed".data)).status = DocumentStatus.FAILED ∧
      (persistExtraction exampleDb 1 exampleExtraction).extractions.countP
          (fun r => r.documentId == 1) = 1 ∧
      (persistExtraction exampleDb 1 exampleExtraction).lineItems
        = exampleDb.lineItems.filter
            (fun li => !(li.extractionId == upsertRecordId exampleDb 1 exampleExtraction))
          ++ exampleExtraction.lines.map
              (lineRowOf (upsertRecordId exampleDb 1 exampleExtraction)) :=
  ⟨(persistExtraction_atomic exampleDb processingDoc 1 exampleExtraction
      (some ("blob".data)) ("tx failed".data) (by decide)).1,
   (persistExtraction_atomic exampleDb processingDoc 1 exampleExtraction
      (some ("blob".data)) ("tx failed".data) (by decide)).2.1,
   (persistExtraction_atomic exampleDb processingDoc 1 exampleExtraction
      (some ("blob".data)) ("tx failed".data) (by decide)).2.2.2.2.1,
   (persistExtraction_atomic exampleDb processingDoc 1 exampleExtraction
      (some ("blob".data)) ("tx failed".data) (by decide)).2.2.2.2.2.2⟩

end MSAnalyzer
